import Mathlib

set_option maxRecDepth 100000

/-!
Verification development for the math-solver HTTP service.

The service (two Express variants, `server.js` and `server1.js`) forwards a
math problem to a completion provider, extracts labeled fields from the raw
completion text with JavaScript regular expressions, optionally calls an
external symbolic-math API, and assembles a JSON response with a fallback
policy.  Below, the string-processing pieces are embedded as executable Lean
functions translated from the source, and the request orchestrators are
embedded as pure functions over an oracle (environment) giving the outcome of
each outbound network call; the orchestrators also return the trace of calls
they issue, so that claims about which calls are made can be stated.
-/

namespace MathSolver

/-- Character class of the JavaScript regex escape backslash-s (and of the
set of characters removed by `String.prototype.trim`): tab, line feed,
vertical tab, form feed, carriage return, space, no-break space, ogham space
mark, the U+2000..U+200A spaces, line separator, paragraph separator, narrow
no-break space, medium mathematical space, ideographic space, byte order
mark. -/
def isJsSpace (c : Char) : Bool :=
  c.val = 9 || c.val = 10 || c.val = 11 || c.val = 12 || c.val = 13 ||
  c.val = 32 || c.val = 0xa0 || c.val = 0x1680 ||
  (0x2000 ≤ c.val && c.val ≤ 0x200a) ||
  c.val = 0x2028 || c.val = 0x2029 || c.val = 0x202f || c.val = 0x205f ||
  c.val = 0x3000 || c.val = 0xfeff

/-- JavaScript line terminators, the characters NOT matched by the regex
dot: line feed, carriage return, line separator, paragraph separator. -/
def isLineTerm (c : Char) : Bool :=
  c.val = 10 || c.val = 13 || c.val = 0x2028 || c.val = 0x2029

/-- Case-insensitive match of a literal pattern at the head of the input
(the regex i flag applied to an ASCII literal like OPERATION:); returns the
remaining input on success.  Models one attempt of the literal part of
patterns such as OPERATION: backslash-s-star (.+). -/
def matchCI : List Char → List Char → Option (List Char)
  | [], rest => some rest
  | _ :: _, [] => none
  | l :: ls, c :: cs => if l.toLower = c.toLower then matchCI ls cs else none

/-- The tail pattern backslash-s-star (.+) of the single-line field regexes,
with JavaScript greedy-plus-backtracking semantics: the whitespace star
first consumes the maximal whitespace run; if a character follows it begins
the capture (dot-plus then greedily takes everything up to the next line
terminator); otherwise the star backtracks, and the capture becomes the last
whitespace character of the run that is not itself a line terminator, if
any.  Returns the captured group. -/
def tailCapture (rest : List Char) : Option (List Char) :=
  let w := rest.takeWhile isJsSpace
  let after := rest.drop w.length
  match after with
  | _ :: _ => some (after.takeWhile (fun c => !(isLineTerm c)))
  | [] =>
    match (w.filter (fun c => !(isLineTerm c))).getLast? with
    | some c => some [c]
    | none => none

/-- The tail pattern backslash-s-star ([backslash-s backslash-S]+) of the
STEPS regex: after the greedy whitespace star the capture extends to the end
of the string; if nothing follows the run, the star backtracks one character
and the capture is the final whitespace character. -/
def tailCaptureAll (rest : List Char) : Option (List Char) :=
  let w := rest.takeWhile isJsSpace
  let after := rest.drop w.length
  match after with
  | _ :: _ => some after
  | [] =>
    match w.getLast? with
    | some c => some [c]
    | none => none

/-- JavaScript String.prototype.match without the g flag: try the pattern at
each start position from the left and return the capture of the first
position at which the whole pattern matches (so if a label recurs, the first
occurrence wins).  This version is for the single-line field regexes. -/
def scanMatch (label : List Char) : List Char → Option (List Char)
  | [] => none
  | c :: cs =>
    match matchCI label (c :: cs) with
    | some r =>
      match tailCapture r with
      | some cap => some cap
      | none => scanMatch label cs
    | none => scanMatch label cs

/-- Left-to-right scan for the STEPS regex (capture runs to end of text). -/
def scanMatchAll (label : List Char) : List Char → Option (List Char)
  | [] => none
  | c :: cs =>
    match matchCI label (c :: cs) with
    | some r =>
      match tailCaptureAll r with
      | some cap => some cap
      | none => scanMatchAll label cs
    | none => scanMatchAll label cs

/-- JavaScript String.prototype.trim: strip whitespace (including line
terminators) from both ends. -/
def jsTrim (l : List Char) : List Char :=
  ((l.dropWhile isJsSpace).reverse.dropWhile isJsSpace).reverse

/-- One field extraction of `server.js` lines 68-70 / `server1.js` lines
115-117: text.match of LABEL backslash-s-star (.+) with the i flag, then
trim of the captured group; none when the regex does not match. -/
def matchField (label : String) (text : String) : Option String :=
  (scanMatch label.data text.data).map (fun cap => (jsTrim cap).asString)

/-- The STEPS extraction of `server.js` line 71: the capture group is
[backslash-s backslash-S]+, reaching to the end of the string. -/
def matchFieldSteps (label : String) (text : String) : Option String :=
  (scanMatchAll label.data text.data).map (fun cap => (jsTrim cap).asString)

/-- The four fields extracted from the raw completion text by `server.js`
lines 68-76. -/
structure Parsed where
  operation : String
  expression : String
  result : String
  steps : String
deriving DecidableEq, Repr

/-- Structured-text parsing of `server.js` lines 68-76: each field is
extracted independently, with a per-field default when its regex does not
match (operation to unknown, expression to the original problem text,
result to Could not determine result, steps to Steps not provided). -/
def parseStructured (problem text : String) : Parsed :=
  { operation := (matchField "OPERATION:" text).getD "unknown"
    expression := (matchField "EXPRESSION:" text).getD problem
    result := (matchField "RESULT:" text).getD "Could not determine result"
    steps := (matchFieldSteps "STEPS:" text).getD "Steps not provided" }

/-- JavaScript String.prototype.toLowerCase restricted to ASCII (all
strings the service compares are ASCII). -/
def jsToLower (s : String) : String :=
  (s.data.map Char.toLower).asString

/-- Whether sub occurs at the head of text. -/
def headOccurs : List Char → List Char → Bool
  | [], _ => true
  | _ :: _, [] => false
  | a :: as, b :: bs => a = b && headOccurs as bs

/-- Whether sub occurs anywhere in text. -/
def subOccurs (sub : List Char) : List Char → Bool
  | [] => sub.isEmpty
  | c :: cs => headOccurs sub (c :: cs) || subOccurs sub cs

/-- JavaScript String.prototype.includes. -/
def containsSub (s sub : String) : Bool :=
  subOccurs sub.data s.data

/-- The regex caret backslash-d-plus dollar of `server.js` line 79: the
whole string is one or more ASCII digits. -/
def isAllDigits (s : String) : Bool :=
  !s.data.isEmpty && s.data.all (fun c => '0' ≤ c && c ≤ '9')

/-- The validation check of `server.js` lines 79-81: the lowercased
operation contains deriv and the result is a bare integer literal; when
true the handler throws (Derivative result should be an expression, not
just a number). -/
def derivValidationFails (pa : Parsed) : Bool :=
  containsSub (jsToLower pa.operation) "deriv" && isAllDigits pa.result

/-! Prompts.  Each prompt template of the source is embedded as the exact
string concatenation the template literal produces; prompts are built with
String.mk over list concatenation so that their leading characters reduce
definitionally even for an abstract problem string. -/

/-- Text of the primary prompt template of `server.js` lines 35-62 before
the interpolated problem. -/
def geminiPre : String :=
  "\nYou are a mathematical expert. Solve this math problem step by step:\n\nProblem: \""

/-- Text of the primary prompt template of `server.js` lines 35-62 after
the interpolated problem. -/
def geminiPost : String :=
  "\"\n\nPlease provide your response in this EXACT format:\nOPERATION: [the mathematical operation needed]\nEXPRESSION: [the clean mathematical expression]\nRESULT: [the final answer - for derivatives, provide the derivative expression like \"2x + 3\"]\nSTEPS: [detailed step-by-step solution]\n\nImportant rules:\n- For derivatives: Show the derivative as an algebraic expression (e.g., \"2x + 3\", not just a number)\n- For integration: Include the constant of integration (+C)\n- For factoring: Show the factored form\n- For simplification: Show the simplified expression\n- Always show your work step by step\n\nExample for derivative of x^2 + 3x + 2:\nOPERATION: derivative\nEXPRESSION: x^2 + 3x + 2  \nRESULT: 2x + 3\nSTEPS: \n1. Apply power rule to x^2: derivative is 2x\n2. Apply power rule to 3x: derivative is 3\n3. Derivative of constant 2 is 0\n4. Combine: 2x + 3 + 0 = 2x + 3\n"

/-- The primary prompt of `server.js` lines 35-62. -/
def geminiPrompt (problem : String) : String :=
  ⟨geminiPre.data ++ problem.data ++ geminiPost.data⟩

/-- The explanation prompt of `server.js` lines 84-99, interpolating the
problem and the four parsed fields. -/
def explanationPrompt (problem : String) (pa : Parsed) : String :=
  ⟨"\nExplain this mathematical solution in clear, educational terms:\n\nProblem: ".data ++
    problem.data ++ "\nOperation: ".data ++ pa.operation.data ++
    "\nExpression: ".data ++ pa.expression.data ++ "\nResult: ".data ++
    pa.result.data ++ "\nSteps: ".data ++ pa.steps.data ++
    "\n\nProvide a friendly explanation that helps someone understand:\n1. What type of problem this is\n2. Why the answer is correct\n3. Key concepts involved\n\nKeep it conversational and educational.\n".data⟩

/-- The minimal fallback prompt of `server.js` line 130. -/
def fallbackPrompt (problem : String) : String :=
  ⟨"Solve this math problem: ".data ++ problem.data⟩

/-- Outcome of one generateContent call: the returned text, or a thrown
error with its message. -/
inductive GenResult where
  | ok (text : String)
  | fail (msg : String)
deriving DecidableEq, Repr

/-- Oracle for the completion provider: the outcome of the generateContent
call for each prompt.  Within one request each prompt string is sent at most
once, so a function of the prompt suffices. -/
def GenEnv := String → GenResult

/-- The analysis object of the JSON response. -/
structure Analysis where
  operation : String
  expression : String
  context : String
deriving DecidableEq, Repr

/-- The calculation object of the JSON response; the steps field is present
only in the primary `server.js` response. -/
structure Calculation where
  method : String
  result : String
  operation : String
  steps : Option String
deriving DecidableEq, Repr

/-- Body of a 200 response of POST /solve.  The raw field holds the
rawGeminiResponse of `server.js` (the geminiAnalysis of `server1.js`). -/
structure SolveBody where
  success : Bool
  originalProblem : String
  analysis : Analysis
  calculation : Calculation
  explanation : String
  raw : String
deriving DecidableEq, Repr

/-- The three response shapes of POST /solve: the 400 body carries only an
error string; the 500 body is success false with an error string and a
details string. -/
inductive HttpResponse where
  | badRequest (error : String)
  | okSolve (body : SolveBody)
  | serverError (error : String) (details : String)
deriving DecidableEq, Repr

/-- The 200 body assembled by `server.js` lines 104-121 on the primary
path. -/
def mkPrimaryBody (problem raw : String) (pa : Parsed) (expl : String) : SolveBody :=
  { success := true
    originalProblem := problem
    analysis :=
      { operation := pa.operation
        expression := pa.expression
        context := ⟨"Solving ".data ++ pa.operation.data ++ " problem".data⟩ }
    calculation :=
      { method := "gemini-ai"
        result := pa.result
        operation := pa.operation
        steps := some pa.steps }
    explanation := expl
    raw := raw }

/-- The 200 body assembled by `server.js` lines 134-141 when the fallback
completion succeeds with text t. -/
def fallbackBody (problem t : String) : SolveBody :=
  { success := true
    originalProblem := problem
    analysis :=
      { operation := "general", expression := problem, context := "Fallback solution" }
    calculation :=
      { method := "gemini-fallback", result := t, operation := "solve", steps := none }
    explanation := "Used fallback method to solve the problem."
    raw := t }

/-- The primary pipeline of `server.js` lines 34-123 (the body of the try
block after the input guard): primary completion, parse, derivative
validation, explanation completion, response assembly.  Returns the built
body, or the message of the first thrown error; either way it also returns
the list of prompts sent, in order. -/
def primaryRun (env : GenEnv) (problem : String) :
    Except (String × List String) (SolveBody × List String) :=
  match env (geminiPrompt problem) with
  | .fail m => .error (m, [geminiPrompt problem])
  | .ok raw =>
    if derivValidationFails (parseStructured problem raw) then
      .error ("Derivative result should be an expression, not just a number",
        [geminiPrompt problem])
    else
      match env (explanationPrompt problem (parseStructured problem raw)) with
      | .fail m =>
        .error (m, [geminiPrompt problem,
          explanationPrompt problem (parseStructured problem raw)])
      | .ok expl =>
        .ok (mkPrimaryBody problem raw (parseStructured problem raw) expl,
          [geminiPrompt problem,
           explanationPrompt problem (parseStructured problem raw)])

/-- The POST /solve handler of `server.js` lines 26-151.  The body is
modelled as the optional problem field ({} gives none); the JavaScript guard
if-not-problem also fires on the empty string.  On any error of the primary
pipeline the catch block issues the single minimal fallback prompt; a
fallback success is packaged by fallbackBody, a second failure yields the
500 whose details field is the message of the ORIGINAL error.  The second
component is the trace of prompts sent to the provider. -/
def solveServer (env : GenEnv) (problem? : Option String) :
    HttpResponse × List String :=
  match problem? with
  | none => (.badRequest "Problem statement is required", [])
  | some problem =>
    if problem = "" then
      (.badRequest "Problem statement is required", [])
    else
      match primaryRun env problem with
      | .ok (body, calls) => (.okSolve body, calls)
      | .error (msg, calls) =>
        match env (fallbackPrompt problem) with
        | .ok t =>
          (.okSolve (fallbackBody problem t), calls ++ [fallbackPrompt problem])
        | .fail _ =>
          (.serverError "Failed to solve math problem" msg,
            calls ++ [fallbackPrompt problem])

/-! The dual-API variant, `server1.js`. -/

/-- The NEWTON_OPERATIONS object literal of `server1.js` lines 29-45. -/
def NEWTON_OPERATIONS : List (String × String) :=
  [("simplify", "simplify"), ("factor", "factor"), ("derive", "derive"),
   ("integrate", "integrate"), ("zeroes", "zeroes"), ("tangent", "tangent"),
   ("area", "area"), ("cosine", "cos"), ("sine", "sin"),
   ("tangent_trig", "tan"), ("arccos", "arccos"), ("arcsin", "arcsin"),
   ("arctan", "arctan"), ("abs", "abs"), ("log", "log")]

/-- Own-property lookup in the NEWTON_OPERATIONS object literal: the first
step of the JavaScript bracket lookup of `server1.js` line 124.  A key that
is no own property is NOT yet undefined: the lookup falls through to the
prototype chain (see jsIndex below). -/
def lookupOp (op : String) : Option String :=
  (NEWTON_OPERATIONS.find? (fun p => p.fst = op)).map (fun p => p.snd)

/-- The member names of Object.prototype: bracket lookup on a plain object
literal falls through to these when the key is no own property, and each
yields a truthy non-string value (a built-in function; for the accessor
member __proto__, the prototype object itself).  Only the all-lowercase
names constructor and __proto__ are reachable from the lowercased parsed
operation of `server1.js` line 119. -/
def protoKeys : List String :=
  ["constructor", "__proto__", "hasOwnProperty", "isPrototypeOf",
   "propertyIsEnumerable", "toLocaleString", "toString", "valueOf",
   "__defineGetter__", "__defineSetter__", "__lookupGetter__",
   "__lookupSetter__"]

/-- A JavaScript value obtainable from NEWTON_OPERATIONS[operation]: an own
string entry of the literal, a truthy member inherited from
Object.prototype (recorded by its member name), or undefined. -/
inductive JsValue where
  | str (s : String)
  | protoMember (name : String)
  | undefined
deriving DecidableEq, Repr

/-- The full JavaScript bracket lookup NEWTON_OPERATIONS[operation]: the
own property if present, else the inherited Object.prototype member if the
key names one, else undefined. -/
def jsIndex (op : String) : JsValue :=
  match lookupOp op with
  | some v => .str v
  | none => if op ∈ protoKeys then .protoMember op else .undefined

/-- NEWTON_OPERATIONS[operation] or-else simplify, `server1.js` line 124:
undefined and the empty string are falsy and give the default; every
inherited Object.prototype member is truthy and is KEPT, so the or-default
does not fire for the keys constructor and __proto__ even though they are
absent from the catalog. -/
def newtonOpVal (op : String) : JsValue :=
  match jsIndex op with
  | .str s => if s = "" then .str "simplify" else .str s
  | .protoMember n => .protoMember n
  | .undefined => .str "simplify"

/-- JavaScript ToString of the looked-up value, applied when newtonOp is
interpolated into the request URL template of `server1.js` line 50 (Node
V8 renderings: the value at the key constructor is the built-in function
Object; the accessor __proto__ yields Object.prototype, an object; the
other members are built-in functions named like their key).  For a string
value ToString is the identity, so own catalog entries and the simplify
default pass through unchanged; undefined renders as the string undefined,
though it is never reached after the or-default. -/
def jsValueToString (v : JsValue) : String :=
  match v with
  | .str s => s
  | .protoMember n =>
    if n = "constructor" then "function Object() \x7b [native code] \x7d"
    else if n = "__proto__" then "[object Object]"
    else ⟨"function ".data ++ n.data ++ "() \x7b [native code] \x7d".data⟩
  | .undefined => "undefined"

/-- The operation token string used for the first Newton call: the bracket
lookup with the or-simplify default, rendered at the template-literal
interpolation.  The same rendering stands in for the raw newtonOp value
stored in the method field of the 200 body (for the inherited-member corner
the raw value is a function or object, whose JSON serialization of that
field is not modelled; no claim concerns the method field). -/
def newtonOpFor (op : String) : String :=
  jsValueToString (newtonOpVal op)

/-- Outcome of one Newton API request: the result and operation fields of
the response data, or a network or HTTP failure with its message. -/
inductive NewtonOutcome where
  | ok (result : String) (operation : String)
  | fail (msg : String)
deriving DecidableEq, Repr

/-- Oracle for the Newton API, indexed by operation token and expression. -/
def NewtonEnv := String → String → NewtonOutcome

/-- callNewtonAPI of `server1.js` lines 48-55: on failure the error is
rethrown with the message prefixed by Newton API error. -/
def callNewton (nenv : NewtonEnv) (op expr : String) :
    Except String (String × String) :=
  match nenv op expr with
  | .ok r o => .ok (r, o)
  | .fail m => .error ⟨"Newton API error: ".data ++ m.data⟩

/-- The three fields extracted from the analysis completion by `server1.js`
lines 115-121. -/
structure Parsed1 where
  operation : String
  expression : String
  context : String
deriving DecidableEq, Repr

/-- Parsing of the analysis completion, `server1.js` lines 115-121: the
matched operation is lowercased, default simplify; expression defaults to
the problem text; context defaults to Mathematical computation. -/
def parse1 (problem text : String) : Parsed1 :=
  { operation :=
      match matchField "Operation:" text with
      | some v => jsToLower v
      | none => "simplify"
    expression := (matchField "Expression:" text).getD problem
    context := (matchField "Context:" text).getD "Mathematical computation" }

/-- The analysis prompt of `server1.js` lines 97-109. -/
def analysisPrompt1 (problem : String) : String :=
  ⟨"\n    Analyze this math problem and determine:\n    1. What mathematical operation is needed (simplify, factor, derive, integrate, find zeros, etc.)\n    2. Extract the mathematical expression in a clean format\n    3. Provide context about the problem type\n    \n    Problem: \"".data ++
    problem.data ++
    "\"\n    \n    Respond in this format:\n    Operation: [operation name]\n    Expression: [clean mathematical expression]\n    Context: [brief explanation of what needs to be solved]\n    ".data⟩

/-- The explanation prompt of `server1.js` lines 136-145, interpolating the
problem, parsed operation, parsed expression and the Newton result. -/
def explanationPrompt1 (problem op expr result : String) : String :=
  ⟨"\n    Explain this mathematical solution in simple terms:\n    \n    Original Problem: ".data ++
    problem.data ++ "\n    Operation Performed: ".data ++ op.data ++
    "\n    Expression: ".data ++ expr.data ++ "\n    Result: ".data ++
    result.data ++
    "\n    \n    Provide a clear, step-by-step explanation of how this solution was obtained.\n    ".data⟩

/-- The Newton stage of `server1.js` lines 126-133: one call with the
mapped operation token; on failure exactly one retry with the fixed token
simplify on the same expression; a failure of the retry propagates.  Also
returns the trace of Newton calls made. -/
def newtonStage (nenv : NewtonEnv) (nop expr : String) :
    Except (String × List (String × String))
      ((String × String) × List (String × String)) :=
  match callNewton nenv nop expr with
  | .ok r => .ok (r, [(nop, expr)])
  | .error _ =>
    match callNewton nenv "simplify" expr with
    | .ok r => .ok (r, [(nop, expr), ("simplify", expr)])
    | .error m2 => .error (m2, [(nop, expr), ("simplify", expr)])

/-- The POST /solve handler of `server1.js` lines 88-178: analysis
completion, parse, catalog mapping, Newton stage with its one retry,
explanation completion, response assembly; any uncaught error yields the
500 with its message as details (this variant has no completion fallback).
Returns the response, the trace of prompts sent to the completion provider
and the trace of Newton calls. -/
def solveServer1 (genv : GenEnv) (nenv : NewtonEnv) (problem? : Option String) :
    HttpResponse × List String × List (String × String) :=
  match problem? with
  | none => (.badRequest "Problem statement is required", [], [])
  | some problem =>
    if problem = "" then
      (.badRequest "Problem statement is required", [], [])
    else
      match genv (analysisPrompt1 problem) with
      | .fail m =>
        (.serverError "Failed to solve math problem" m, [analysisPrompt1 problem], [])
      | .ok raw =>
        match newtonStage nenv (newtonOpFor (parse1 problem raw).operation)
            (parse1 problem raw).expression with
        | .error (m, ncalls) =>
          (.serverError "Failed to solve math problem" m,
            [analysisPrompt1 problem], ncalls)
        | .ok ((r, o), ncalls) =>
          match genv (explanationPrompt1 problem (parse1 problem raw).operation
              (parse1 problem raw).expression r) with
          | .fail m =>
            (.serverError "Failed to solve math problem" m,
              [analysisPrompt1 problem,
               explanationPrompt1 problem (parse1 problem raw).operation
                 (parse1 problem raw).expression r], ncalls)
          | .ok expl =>
            (.okSolve
              { success := true
                originalProblem := problem
                analysis :=
                  { operation := (parse1 problem raw).operation
                    expression := (parse1 problem raw).expression
                    context := (parse1 problem raw).context }
                calculation :=
                  { method := newtonOpFor (parse1 problem raw).operation
                    result := r, operation := o, steps := none }
                explanation := expl
                raw := raw },
              [analysisPrompt1 problem,
               explanationPrompt1 problem (parse1 problem raw).operation
                 (parse1 problem raw).expression r], ncalls)

/-! CORS middleware and health endpoints. -/

/-- The three headers set by the middleware of `server.js` and `server1.js`
lines 8-17, with their exact values. -/
def corsHeaders : List (String × String) :=
  [("Access-Control-Allow-Origin", "*"),
   ("Access-Control-Allow-Methods", "GET, POST, PUT, DELETE, OPTIONS"),
   ("Access-Control-Allow-Headers",
    "Origin, X-Requested-With, Content-Type, Accept, Authorization")]

/-- Result of the CORS middleware for one request: the headers it set, and
either a short-circuit reply (status and body; next() not called) or none
(next() called, routing continues). -/
structure MiddlewareOut where
  headers : List (String × String)
  reply : Option (Nat × String)
deriving DecidableEq, Repr

/-- The middleware of `server.js` / `server1.js` lines 8-17: always set the
three CORS headers; for an OPTIONS request call res.sendStatus(200), which
per Express semantics sends the registered status message OK as the text
body; otherwise call next(). -/
def corsMiddleware (method : String) : MiddlewareOut :=
  { headers := corsHeaders
    reply := if method = "OPTIONS" then some (200, "OK") else none }

/-- The services.gemini value of the health endpoints: the JavaScript
double-negation of process.env.GEMINI_API_KEY, false for an unset variable
and for the empty string, true otherwise. -/
def jsTruthy : Option String → Bool
  | none => false
  | some s => !(s = "")

/-- Body of GET /health. -/
structure HealthBody where
  status : String
  gemini : Bool
  note : String
deriving DecidableEq, Repr

/-- The GET /health handler of `server.js` lines 381-389 (the note field is
the services.method string). -/
def healthHandler (geminiKey : Option String) : HealthBody :=
  { status := "healthy"
    gemini := jsTruthy geminiKey
    note := "gemini-only (newton api removed for reliability)" }

/-- The GET /health handler of `server1.js` lines 397-405 (the note field
is the services.newton string). -/
def healthHandler1 (geminiKey : Option String) : HealthBody :=
  { status := "healthy"
    gemini := jsTruthy geminiKey
    note := "available (no key required)" }

/-! Concrete environments used to instantiate the theorems below. -/

/-- A provider for which every completion fails except the minimal fallback
prompt for the problem q1. -/
def envC1 : GenEnv := fun s =>
  if s = fallbackPrompt "q1" then .ok "fallback answer" else .fail "primary down"

/-- A provider whose primary completion for the problem 1+1 is the
degenerate text OPERATION-colon-space, whose regex capture trims to the
empty string; every other completion succeeds. -/
def envC2 : GenEnv := fun s =>
  if s = geminiPrompt "1+1" then .ok "OPERATION: " else .ok "expl"

/-- The 200 body the single-model server produces under envC2. -/
def bodyC2 : SolveBody :=
  mkPrimaryBody "1+1" "OPERATION: " (parseStructured "1+1" "OPERATION: ") "expl"

/-- An all-succeeding provider. -/
def envAllOk : GenEnv := fun _ => .ok "x"

/-- An all-succeeding Newton API. -/
def nenvAllOk : NewtonEnv := fun _ _ => .ok "r" "o"

/-- A provider whose primary completion for the problem dd claims a
derivative with a bare integer result; every other completion succeeds. -/
def envC4 : GenEnv := fun s =>
  if s = geminiPrompt "dd" then .ok "OPERATION: Derivative\nRESULT: 7" else .ok "fb"

/-- The primary completion text used with envC5. -/
def rawC5 : String := "OPERATION: add\nRESULT: 4"

/-- A provider for which the primary completion for the problem q5
succeeds with a well-formed parse, the explanation completion fails, and
the fallback completion succeeds. -/
def envC5 : GenEnv := fun s =>
  if s = geminiPrompt "q5" then .ok rawC5
  else if s = explanationPrompt "q5" (parseStructured "q5" rawC5) then
    .fail "explanation down"
  else .ok "fb5"

/-- A provider whose analysis completion for the problem p8 names the
factor operation; nothing else is reached before the Newton failure. -/
def genvC8 : GenEnv := fun s =>
  if s = analysisPrompt1 "p8" then .ok "Operation: Factor\nExpression: x^2"
  else .fail "no"

/-- A Newton API that always fails. -/
def nenvC8 : NewtonEnv := fun _ _ => .fail "newton down"

/-- A provider whose analysis completion for the problem p9 names the
operation CONSTRUCTOR, which lowercases to the inherited Object.prototype
key constructor; every other completion succeeds. -/
def genvC8b : GenEnv := fun s =>
  if s = analysisPrompt1 "p9" then .ok "Operation: CONSTRUCTOR\nExpression: x"
  else .ok "expl"

/-- The response shape asserted by the spec for a non-empty problem: a 200
whose body has success true and non-empty originalProblem,
analysis.operation and calculation.result, or a 500 (success false). -/
def c2ClaimAt (r : HttpResponse) : Prop :=
  (∃ b, r = .okSolve b ∧ b.success = true ∧ b.originalProblem ≠ "" ∧
    b.analysis.operation ≠ "" ∧ b.calculation.result ≠ "") ∨
  (∃ e d, r = .serverError e d)

/-- The weaker response shape that does hold: a 200 whose body has success
true and originalProblem equal to the submitted problem, or a 500. -/
def respOk (r : HttpResponse) (problem : String) : Prop :=
  (∃ b, r = .okSolve b ∧ b.success = true ∧ b.originalProblem = problem) ∨
  (∃ e d, r = .serverError e d)

end MathSolver

namespace MathSolver

/-! Helper lemmas. -/

/-- The primary prompt starts with a line feed, whatever the problem. -/
theorem geminiPrompt_head (p : String) :
    (geminiPrompt p).data.head? = some '\n' := rfl

/-- The explanation prompt starts with a line feed. -/
theorem explanationPrompt_head (p : String) (pa : Parsed) :
    (explanationPrompt p pa).data.head? = some '\n' := rfl

/-- The fallback prompt starts with the letter S. -/
theorem fallbackPrompt_head (p : String) :
    (fallbackPrompt p).data.head? = some 'S' := rfl

/-- The primary prompt is never the fallback prompt. -/
theorem geminiPrompt_ne_fallbackPrompt (p q : String) :
    geminiPrompt p ≠ fallbackPrompt q := by
  intro h
  have h1 : (geminiPrompt p).data.head? = some '\n' := geminiPrompt_head p
  rw [h, fallbackPrompt_head q] at h1
  exact absurd h1 (by decide)

/-- The explanation prompt is never the fallback prompt. -/
theorem explanationPrompt_ne_fallbackPrompt (p : String) (pa : Parsed) (q : String) :
    explanationPrompt p pa ≠ fallbackPrompt q := by
  intro h
  have h1 : (explanationPrompt p pa).data.head? = some '\n' := explanationPrompt_head p pa
  rw [h, fallbackPrompt_head q] at h1
  exact absurd h1 (by decide)

/-- Shape of the prompt trace of a failed primary pipeline: the primary
prompt alone (completion failure or validation failure), or the primary
prompt followed by the explanation prompt (explanation failure). -/
theorem primaryRun_error_calls (env : GenEnv) (problem msg : String)
    (calls : List String)
    (h : primaryRun env problem = .error (msg, calls)) :
    calls = [geminiPrompt problem] ∨
    ∃ raw, env (geminiPrompt problem) = .ok raw ∧
      calls = [geminiPrompt problem,
        explanationPrompt problem (parseStructured problem raw)] := by
  unfold primaryRun at h
  split at h
  · simp only [Except.error.injEq, Prod.mk.injEq] at h
    exact Or.inl h.2.symm
  next raw heq =>
    split at h
    · simp only [Except.error.injEq, Prod.mk.injEq] at h
      exact Or.inl h.2.symm
    · split at h
      · simp only [Except.error.injEq, Prod.mk.injEq] at h
        exact Or.inr ⟨raw, heq, h.2.symm⟩
      · simp at h

/-- A successful primary pipeline always returns a body with success true
and originalProblem equal to the submitted problem. -/
theorem primaryRun_ok_body (env : GenEnv) (problem : String) (b : SolveBody)
    (calls : List String) (h : primaryRun env problem = .ok (b, calls)) :
    b.success = true ∧ b.originalProblem = problem := by
  unfold primaryRun at h
  split at h
  · simp at h
  · split at h
    · simp at h
    · split at h
      · simp at h
      · simp only [Except.ok.injEq, Prod.mk.injEq] at h
        rw [← h.1]
        exact ⟨rfl, rfl⟩

/-- Unfolding of the handler when the primary pipeline fails: the catch
block issues the fallback prompt and the result depends on its outcome. -/
theorem solveServer_error (env : GenEnv) (problem msg : String)
    (calls : List String) (hp : ¬ problem = "")
    (h : primaryRun env problem = .error (msg, calls)) :
    solveServer env (some problem) =
      match env (fallbackPrompt problem) with
      | .ok t => (.okSolve (fallbackBody problem t), calls ++ [fallbackPrompt problem])
      | .fail _ =>
        (.serverError "Failed to solve math problem" msg,
          calls ++ [fallbackPrompt problem]) := by
  simp only [solveServer]
  rw [if_neg hp, h]

/-- The fallback prompt never occurs among the prompts of a failed primary
pipeline. -/
theorem fallbackPrompt_not_mem_calls (env : GenEnv) (problem msg : String)
    (calls : List String)
    (h : primaryRun env problem = .error (msg, calls)) :
    fallbackPrompt problem ∉ calls := by
  rcases primaryRun_error_calls env problem msg calls h with hc | ⟨raw, _, hc⟩
  · subst hc
    intro hm
    simp only [List.mem_singleton] at hm
    exact geminiPrompt_ne_fallbackPrompt problem problem hm.symm
  · subst hc
    intro hm
    simp only [List.mem_cons, List.mem_singleton, List.not_mem_nil, or_false] at hm
    rcases hm with hm | hm
    · exact geminiPrompt_ne_fallbackPrompt problem problem hm.symm
    · exact explanationPrompt_ne_fallbackPrompt problem
        (parseStructured problem raw) problem hm.symm

/-- Behavior of the Newton stage when the first call fails: the retry with
the simplify token on the same expression decides the outcome, and both
calls appear in the trace. -/
theorem newtonStage_first_fail (nenv : NewtonEnv) (nop expr m : String)
    (h : nenv nop expr = .fail m) :
    newtonStage nenv nop expr =
      match nenv "simplify" expr with
      | .ok r o => .ok ((r, o), [(nop, expr), ("simplify", expr)])
      | .fail m2 =>
        .error (⟨"Newton API error: ".data ++ m2.data⟩,
          [(nop, expr), ("simplify", expr)]) := by
  unfold newtonStage callNewton
  rw [h]
  cases h2 : nenv "simplify" expr <;> rfl

/-- The first Newton call of the stage uses the given operation token and
expression. -/
theorem newtonStage_head (nenv : NewtonEnv) (nop expr : String) :
    (match newtonStage nenv nop expr with
     | .ok (_, nc) => nc
     | .error (_, nc) => nc).head? = some (nop, expr) := by
  unfold newtonStage callNewton
  cases h1 : nenv nop expr
  · rfl
  · cases h2 : nenv "simplify" expr <;> rfl

end MathSolver

namespace MathSolver

/-- C3: POST /solve with a body lacking the problem field, or with the
empty-string problem, returns exactly the 400 with the literal message
Problem statement is required, and neither server variant issues any
upstream call (both call traces are empty), whatever the providers do. -/
theorem c3_missing_problem_guard (env genv : GenEnv) (nenv : NewtonEnv) :
    solveServer env none = (.badRequest "Problem statement is required", []) ∧
    solveServer env (some "") = (.badRequest "Problem statement is required", []) ∧
    solveServer1 genv nenv none =
      (.badRequest "Problem statement is required", [], []) ∧
    solveServer1 genv nenv (some "") =
      (.badRequest "Problem statement is required", [], []) := by
  refine ⟨rfl, ?_, rfl, ?_⟩ <;> simp [solveServer, solveServer1]

/-- C6: on the reference raw text the structured-text parser yields exactly
operation derivative, expression x^2, result 2x, steps apply power rule;
moreover label matching is case-insensitive, a single-line field takes the
remainder of its line, the steps field takes the remainder of the text to
the end of the string, and when a label recurs the first occurrence wins. -/
theorem c6_parser_example :
    parseStructured "PROB"
      "OPERATION: derivative\nEXPRESSION: x^2\nRESULT: 2x\nSTEPS: apply power rule" =
      { operation := "derivative", expression := "x^2", result := "2x",
        steps := "apply power rule" } ∧
    (parseStructured "PROB" "operation: add\nresult: 4").operation = "add" ∧
    (parseStructured "PROB" "RESULT: one\nRESULT: two").result = "one" ∧
    (parseStructured "PROB" "STEPS: a\nb\nc").steps = "a\nb\nc" ∧
    (parseStructured "PROB" "EXPRESSION: x+1\ntrailing").expression = "x+1" := by
  decide

/-- C7: each of the four fields is extracted independently (each equals its
own label extraction, whatever the other labels do), and when a label is
absent the field falls back to its default: operation to unknown (simplify
in the dual-API variant), expression to the original problem text, result
to Could not determine result, steps to Steps not provided; extraction of
the other fields is never aborted since the parser is total. -/
theorem c7_parser_defaults (problem text : String) :
    ((parseStructured problem text).operation =
      (matchField "OPERATION:" text).getD "unknown") ∧
    ((parseStructured problem text).expression =
      (matchField "EXPRESSION:" text).getD problem) ∧
    ((parseStructured problem text).result =
      (matchField "RESULT:" text).getD "Could not determine result") ∧
    ((parseStructured problem text).steps =
      (matchFieldSteps "STEPS:" text).getD "Steps not provided") ∧
    (matchField "OPERATION:" text = none →
      (parseStructured problem text).operation = "unknown") ∧
    (matchField "EXPRESSION:" text = none →
      (parseStructured problem text).expression = problem) ∧
    (matchField "RESULT:" text = none →
      (parseStructured problem text).result = "Could not determine result") ∧
    (matchFieldSteps "STEPS:" text = none →
      (parseStructured problem text).steps = "Steps not provided") ∧
    (matchField "Operation:" text = none →
      (parse1 problem text).operation = "simplify") := by
  refine ⟨rfl, rfl, rfl, rfl, ?_, ?_, ?_, ?_, ?_⟩ <;>
    intro h <;> simp [parseStructured, parse1, h]

/-- Witness for c7_parser_defaults: on a text with no RESULT label (and no
other labels) every field takes its documented default, and on a text with
only an OPERATION label the result and steps fields still degrade without
aborting. -/
theorem c7_parser_defaults_witness :
    (parseStructured "P" "free text with no labels").operation = "unknown" ∧
    (parseStructured "P" "free text with no labels").expression = "P" ∧
    (parseStructured "P" "OPERATION: add").result = "Could not determine result" ∧
    (parseStructured "P" "OPERATION: add").steps = "Steps not provided" ∧
    (parse1 "P" "free text with no labels").operation = "simplify" := by
  refine ⟨(c7_parser_defaults "P" "free text with no labels").2.2.2.2.1 (by decide),
    (c7_parser_defaults "P" "free text with no labels").2.2.2.2.2.1 (by decide),
    (c7_parser_defaults "P" "OPERATION: add").2.2.2.2.2.2.1 (by decide),
    (c7_parser_defaults "P" "OPERATION: add").2.2.2.2.2.2.2.1 (by decide),
    (c7_parser_defaults "P" "free text with no labels").2.2.2.2.2.2.2.2 (by decide)⟩

/-- C9 counterexample: the OPTIONS short-circuit reply of the CORS
middleware does not have an empty body; res.sendStatus(200) sends the
status message OK as the body. -/
theorem c9_claim_counterexample :
    (corsMiddleware "OPTIONS").reply = some (200, "OK") ∧
    ¬ ((corsMiddleware "OPTIONS").reply = some (200, "")) := by decide

/-- C9 as amended: an OPTIONS request short-circuits with status 200 and
body OK (the status message) with the three CORS headers set (the
Access-Control-Allow-Methods value permitting GET, POST, PUT, DELETE and
OPTIONS), and any other method passes through to the routes with the same
headers set. -/
theorem c9_options_shortcircuit :
    (corsMiddleware "OPTIONS").reply = some (200, "OK") ∧
    (corsMiddleware "OPTIONS").headers = corsHeaders ∧
    (∀ m, m ≠ "OPTIONS" →
      (corsMiddleware m).reply = none ∧ (corsMiddleware m).headers = corsHeaders) := by
  refine ⟨rfl, rfl, ?_⟩
  intro m hm
  exact ⟨by simp [corsMiddleware, hm], rfl⟩

/-- Witness for c9_options_shortcircuit at the GET method. -/
theorem c9_options_shortcircuit_witness :
    (corsMiddleware "GET").reply = none ∧
    (corsMiddleware "GET").headers = corsHeaders :=
  c9_options_shortcircuit.2.2 "GET" (by decide)

/-- C10: both health handlers always report the status healthy; the
services.gemini boolean is true exactly when the credential is set and
non-empty; and the whole response depends only on that boolean, never on
the text of the credential (two credentials of equal truthiness give
identical responses), so the credential value cannot appear in it. -/
theorem c10_health_invariants (k k1 k2 : Option String) :
    (healthHandler k).status = "healthy" ∧
    (healthHandler1 k).status = "healthy" ∧
    ((healthHandler k).gemini = true ↔ k ≠ none ∧ k ≠ some "") ∧
    ((healthHandler1 k).gemini = (healthHandler k).gemini) ∧
    (jsTruthy k1 = jsTruthy k2 →
      healthHandler k1 = healthHandler k2 ∧ healthHandler1 k1 = healthHandler1 k2) := by
  refine ⟨rfl, rfl, ?_, rfl, ?_⟩
  · cases k with
    | none => simp [healthHandler, jsTruthy]
    | some s => simp [healthHandler, jsTruthy]
  · intro h
    constructor <;> simp [healthHandler, healthHandler1, h]

/-- Witness for c10_health_invariants: a configured credential reports
healthy with gemini true, and two distinct non-empty credentials give the
same response. -/
theorem c10_health_invariants_witness :
    (healthHandler (some "key-one")).status = "healthy" ∧
    (healthHandler (some "key-one")).gemini = true ∧
    healthHandler (some "key-one") = healthHandler (some "another-key") ∧
    healthHandler1 (some "key-one") = healthHandler1 (some "another-key") := by
  refine ⟨(c10_health_invariants (some "key-one") (some "key-one")
      (some "another-key")).1,
    (c10_health_invariants (some "key-one") (some "key-one")
      (some "another-key")).2.2.1.mpr ⟨by decide, by decide⟩,
    ((c10_health_invariants (some "key-one") (some "key-one")
      (some "another-key")).2.2.2.2 (by decide)).1,
    ((c10_health_invariants (some "key-one") (some "key-one")
      (some "another-key")).2.2.2.2 (by decide)).2⟩

end MathSolver

namespace MathSolver

/-- C1: whenever the primary pipeline of the single-model server fails
(completion failure, validation failure or explanation failure, with the
message of that first failure being msg), the catch block issues exactly
one fallback completion, whose prompt is the minimal Solve this math
problem prompt; if it succeeds with text t the response is the 200 body
with success true packaging t as calculation.result under the method tag
gemini-fallback (the rendering of the abstract tag fallback of the spec)
with analysis.operation general; if it fails, the response is the 500 whose
details field carries msg, the message of the ORIGINAL failure, not the
message of the fallback failure. -/
theorem c1_fallback_policy (env : GenEnv) (problem msg : String)
    (calls : List String) (hp : problem ≠ "")
    (h : primaryRun env problem = .error (msg, calls)) :
    (solveServer env (some problem)).2.count (fallbackPrompt problem) = 1 ∧
    (∀ t, env (fallbackPrompt problem) = .ok t →
      solveServer env (some problem) =
        (.okSolve (fallbackBody problem t), calls ++ [fallbackPrompt problem]) ∧
      (fallbackBody problem t).success = true ∧
      (fallbackBody problem t).calculation.method = "gemini-fallback" ∧
      (fallbackBody problem t).calculation.result = t ∧
      (fallbackBody problem t).analysis.operation = "general") ∧
    (∀ m2, env (fallbackPrompt problem) = .fail m2 →
      (solveServer env (some problem)).1 =
        .serverError "Failed to solve math problem" msg) := by
  have hout := solveServer_error env problem msg calls hp h
  have hnm := fallbackPrompt_not_mem_calls env problem msg calls h
  refine ⟨?_, ?_, ?_⟩
  · cases hf : env (fallbackPrompt problem) <;> rw [hf] at hout <;>
      rw [hout] <;>
      simp [List.count_append, List.count_eq_zero_of_not_mem hnm]
  · intro t hf
    rw [hf] at hout
    exact ⟨hout, rfl, rfl, rfl, rfl⟩
  · intro m2 hf
    rw [hf] at hout
    rw [hout]

/-- Witness for c1_fallback_policy: with a provider that fails every
completion except the minimal fallback prompt, the trace holds the fallback
prompt exactly once and the response is the packaged fallback 200. -/
theorem c1_fallback_policy_witness :
    (solveServer envC1 (some "q1")).2.count (fallbackPrompt "q1") = 1 ∧
    solveServer envC1 (some "q1") =
      (.okSolve (fallbackBody "q1" "fallback answer"),
        [geminiPrompt "q1", fallbackPrompt "q1"]) := by
  have h := c1_fallback_policy envC1 "q1" "primary down" [geminiPrompt "q1"]
    (by decide) (by rfl)
  exact ⟨h.1, (h.2.1 "fallback answer" (by rfl)).1⟩

end MathSolver

namespace MathSolver

/-- C2 counterexample: for the non-empty problem 1+1 and a provider whose
primary completion is the text OPERATION-colon-space, the single-model
server returns a 200 success-true body whose analysis.operation is the
EMPTY string (the regex captures the lone space, which trims to empty), so
the response satisfies neither disjunct of the claimed shape. -/
theorem c2_claim_counterexample :
    (solveServer envC2 (some "1+1")).1 = .okSolve bodyC2 ∧
    bodyC2.success = true ∧
    bodyC2.analysis.operation = "" ∧
    ¬ c2ClaimAt (solveServer envC2 (some "1+1")).1 := by
  have hr : (solveServer envC2 (some "1+1")).1 = .okSolve bodyC2 := by decide
  refine ⟨hr, rfl, by decide, ?_⟩
  intro hc
  unfold c2ClaimAt at hc
  rcases hc with ⟨b, hb, _, _, hop, _⟩ | ⟨e, d, hed⟩
  · rw [hr] at hb
    injection hb with hb
    rw [← hb] at hop
    exact hop (by decide)
  · rw [hr] at hed
    exact HttpResponse.noConfusion hed

/-- C2 as amended: for every non-empty problem string both variants of
POST /solve return either a 200 body with success true and originalProblem
equal to the (non-empty) submitted problem, or a 500 (success false); a 200
with success false is impossible; but the analysis.operation and
calculation.result fields of a 200, though always present, are not
guaranteed non-empty (see the counterexample). -/
theorem c2_response_shape (env genv : GenEnv) (nenv : NewtonEnv)
    (problem : String) (hp : problem ≠ "") :
    respOk (solveServer env (some problem)).1 problem ∧
    respOk (solveServer1 genv nenv (some problem)).1 problem := by
  constructor
  · unfold respOk
    simp only [solveServer]
    rw [if_neg hp]
    cases h : primaryRun env problem with
    | ok pr =>
      obtain ⟨b, calls⟩ := pr
      dsimp only
      left
      exact ⟨b, rfl, (primaryRun_ok_body env problem b calls h).1,
        (primaryRun_ok_body env problem b calls h).2⟩
    | error pr =>
      obtain ⟨msg, calls⟩ := pr
      dsimp only
      cases hf : env (fallbackPrompt problem) with
      | ok t => dsimp only; left; exact ⟨fallbackBody problem t, rfl, rfl, rfl⟩
      | fail m => dsimp only; right; exact ⟨_, _, rfl⟩
  · unfold respOk
    simp only [solveServer1]
    rw [if_neg hp]
    cases h1 : genv (analysisPrompt1 problem) with
    | fail m => dsimp only; right; exact ⟨_, _, rfl⟩
    | ok raw =>
      dsimp only
      cases h2 : newtonStage nenv (newtonOpFor (parse1 problem raw).operation)
          (parse1 problem raw).expression with
      | error pr =>
        obtain ⟨m, nc⟩ := pr
        dsimp only
        right; exact ⟨_, _, rfl⟩
      | ok pr =>
        obtain ⟨⟨r, o⟩, nc⟩ := pr
        dsimp only
        cases h3 : genv (explanationPrompt1 problem (parse1 problem raw).operation
            (parse1 problem raw).expression r) with
        | fail m => dsimp only; right; exact ⟨_, _, rfl⟩
        | ok expl => dsimp only; left; exact ⟨_, rfl, rfl, rfl⟩

/-- Witness for c2_response_shape at the problem 2+2 with all-succeeding
collaborators. -/
theorem c2_response_shape_witness :
    respOk (solveServer envAllOk (some "2+2")).1 "2+2" ∧
    respOk (solveServer1 envAllOk nenvAllOk (some "2+2")).1 "2+2" :=
  c2_response_shape envAllOk envAllOk nenvAllOk "2+2" (by decide)

end MathSolver

namespace MathSolver

/-- C4: when the parsed operation of the primary completion contains deriv
(case-insensitively) and the parsed result is a bare integer literal, the
handler throws the validation error (the primary pipeline fails with that
message right after the primary prompt), the request is routed to the
fallback branch (the full prompt trace is the primary prompt followed by
the single fallback prompt, with no explanation prompt), and the response
is the fallback packaging (or the 500 carrying the validation message),
never a primary 200 returning that integer as the derivative result. -/
theorem c4_derivative_validation (env : GenEnv) (problem raw : String)
    (hp : problem ≠ "")
    (hraw : env (geminiPrompt problem) = .ok raw)
    (hop : containsSub (jsToLower (parseStructured problem raw).operation)
      "deriv" = true)
    (hres : isAllDigits (parseStructured problem raw).result = true) :
    primaryRun env problem =
      .error ("Derivative result should be an expression, not just a number",
        [geminiPrompt problem]) ∧
    (solveServer env (some problem)).2 =
      [geminiPrompt problem, fallbackPrompt problem] ∧
    (∀ t, env (fallbackPrompt problem) = .ok t →
      (solveServer env (some problem)).1 = .okSolve (fallbackBody problem t)) ∧
    (∀ m2, env (fallbackPrompt problem) = .fail m2 →
      (solveServer env (some problem)).1 =
        .serverError "Failed to solve math problem"
          "Derivative result should be an expression, not just a number") := by
  have hval : derivValidationFails (parseStructured problem raw) = true := by
    unfold derivValidationFails
    rw [hop, hres]
    rfl
  have hrun : primaryRun env problem =
      .error ("Derivative result should be an expression, not just a number",
        [geminiPrompt problem]) := by
    unfold primaryRun
    rw [hraw]
    simp [hval]
  have hout := solveServer_error env problem
    "Derivative result should be an expression, not just a number"
    [geminiPrompt problem] hp hrun
  refine ⟨hrun, ?_, ?_, ?_⟩
  · cases hf : env (fallbackPrompt problem) <;> rw [hf] at hout <;> rw [hout] <;> rfl
  · intro t hf
    rw [hf] at hout
    rw [hout]
  · intro m2 hf
    rw [hf] at hout
    rw [hout]

/-- Witness for c4_derivative_validation: a completion claiming OPERATION
Derivative with RESULT 7 trips the validation and the request is answered
by the fallback packaging. -/
theorem c4_derivative_validation_witness :
    primaryRun envC4 "dd" =
      .error ("Derivative result should be an expression, not just a number",
        [geminiPrompt "dd"]) ∧
    (solveServer envC4 (some "dd")).2 = [geminiPrompt "dd", fallbackPrompt "dd"] ∧
    (solveServer envC4 (some "dd")).1 = .okSolve (fallbackBody "dd" "fb") := by
  have h := c4_derivative_validation envC4 "dd" "OPERATION: Derivative\nRESULT: 7"
    (by decide) (by rfl) (by decide) (by decide)
  exact ⟨h.1, h.2.1, h.2.2.1 "fb" (by rfl)⟩

/-- C5 counterexample: a failure of the explanation completion is NOT fatal
for the request in the single-model variant: with a provider whose primary
completion parses cleanly, whose explanation completion fails, and whose
fallback completion succeeds, the server answers 200 with success true (the
fallback packaging), so the request does not fail and does not reach the
Error state. -/
theorem c5_claim_counterexample :
    envC5 (explanationPrompt "q5" (parseStructured "q5" rawC5)) =
      .fail "explanation down" ∧
    (solveServer envC5 (some "q5")).1 = .okSolve (fallbackBody "q5" "fb5") ∧
    (fallbackBody "q5" "fb5").success = true := by
  refine ⟨by rfl, by decide, rfl⟩

/-- C5 as amended: a failure of the second (explanation) completion is not
retried as an explanation and does not degrade to an empty explanation;
like any other pipeline failure it is routed to the fallback branch: the
trace shows the explanation prompt exactly once followed by the single
fallback prompt, a successful fallback yields the fallback 200, and only
when the fallback also fails does the request fail, with the 500 details
carrying the message of the explanation failure. -/
theorem c5_explanation_failure_goes_to_fallback (env : GenEnv)
    (problem raw m : String) (hp : problem ≠ "")
    (hraw : env (geminiPrompt problem) = .ok raw)
    (hval : derivValidationFails (parseStructured problem raw) = false)
    (hexp : env (explanationPrompt problem (parseStructured problem raw)) =
      .fail m) :
    (solveServer env (some problem)).2 =
      [geminiPrompt problem,
       explanationPrompt problem (parseStructured problem raw),
       fallbackPrompt problem] ∧
    (∀ t, env (fallbackPrompt problem) = .ok t →
      (solveServer env (some problem)).1 = .okSolve (fallbackBody problem t)) ∧
    (∀ m2, env (fallbackPrompt problem) = .fail m2 →
      (solveServer env (some problem)).1 =
        .serverError "Failed to solve math problem" m) := by
  have hrun : primaryRun env problem =
      .error (m, [geminiPrompt problem,
        explanationPrompt problem (parseStructured problem raw)]) := by
    unfold primaryRun
    rw [hraw]
    simp [hval, hexp]
  have hout := solveServer_error env problem m
    [geminiPrompt problem, explanationPrompt problem (parseStructured problem raw)]
    hp hrun
  refine ⟨?_, ?_, ?_⟩
  · cases hf : env (fallbackPrompt problem) <;> rw [hf] at hout <;> rw [hout] <;> rfl
  · intro t hf
    rw [hf] at hout
    rw [hout]
  · intro m2 hf
    rw [hf] at hout
    rw [hout]

/-- Witness for c5_explanation_failure_goes_to_fallback under envC5. -/
theorem c5_explanation_failure_goes_to_fallback_witness :
    (solveServer envC5 (some "q5")).2 =
      [geminiPrompt "q5",
       explanationPrompt "q5" (parseStructured "q5" rawC5),
       fallbackPrompt "q5"] ∧
    (solveServer envC5 (some "q5")).1 = .okSolve (fallbackBody "q5" "fb5") := by
  have h := c5_explanation_failure_goes_to_fallback envC5 "q5" rawC5
    "explanation down" (by decide) (by rfl) (by decide) (by rfl)
  exact ⟨h.1, h.2.1 "fb5" (by rfl)⟩

end MathSolver

namespace MathSolver

/-- C8 as amended: in the dual-API variant, when the Newton call for the
mapped operation token fails, exactly one retry is made with the fixed
default token simplify applied to the same expression (the Newton trace is
exactly those two calls); only when the retry also fails does the failure
propagate to the orchestrator, surfacing as the 500 (with the wrapped
Newton message as details); the token of the first call is the bracket
lookup with or-default (the head of the Newton trace); and a parsed
operation that is neither an own catalog entry nor the name of an
Object.prototype member is mapped to the default token simplify before the
first call — but a prototype member name (constructor and __proto__ being
the reachable all-lowercase ones) is NOT defaulted, because the inherited
value is truthy: it yields a token different from simplify. -/
theorem c8_newton_retry (genv : GenEnv) (nenv : NewtonEnv) (problem raw : String)
    (hp : problem ≠ "")
    (hraw : genv (analysisPrompt1 problem) = .ok raw) :
    ((solveServer1 genv nenv (some problem)).2.2.head? =
      some (newtonOpFor (parse1 problem raw).operation,
        (parse1 problem raw).expression)) ∧
    (∀ m, nenv (newtonOpFor (parse1 problem raw).operation)
        (parse1 problem raw).expression = .fail m →
      (solveServer1 genv nenv (some problem)).2.2 =
        [(newtonOpFor (parse1 problem raw).operation,
          (parse1 problem raw).expression),
         ("simplify", (parse1 problem raw).expression)] ∧
      (∀ m2, nenv "simplify" (parse1 problem raw).expression = .fail m2 →
        (solveServer1 genv nenv (some problem)).1 =
          .serverError "Failed to solve math problem"
            ⟨"Newton API error: ".data ++ m2.data⟩)) ∧
    (∀ op, lookupOp op = none → op ∉ protoKeys → newtonOpFor op = "simplify") ∧
    (∀ op, op ∈ protoKeys →
      lookupOp op = none ∧ newtonOpFor op ≠ "simplify") := by
  have hs : solveServer1 genv nenv (some problem) =
      (match newtonStage nenv (newtonOpFor (parse1 problem raw).operation)
          (parse1 problem raw).expression with
      | .error (m, ncalls) =>
        (.serverError "Failed to solve math problem" m,
          [analysisPrompt1 problem], ncalls)
      | .ok ((r, o), ncalls) =>
        match genv (explanationPrompt1 problem (parse1 problem raw).operation
            (parse1 problem raw).expression r) with
        | .fail m =>
          (.serverError "Failed to solve math problem" m,
            [analysisPrompt1 problem,
             explanationPrompt1 problem (parse1 problem raw).operation
               (parse1 problem raw).expression r], ncalls)
        | .ok expl =>
          (.okSolve
            { success := true
              originalProblem := problem
              analysis :=
                { operation := (parse1 problem raw).operation
                  expression := (parse1 problem raw).expression
                  context := (parse1 problem raw).context }
              calculation :=
                { method := newtonOpFor (parse1 problem raw).operation
                  result := r, operation := o, steps := none }
              explanation := expl
              raw := raw },
            [analysisPrompt1 problem,
             explanationPrompt1 problem (parse1 problem raw).operation
               (parse1 problem raw).expression r], ncalls)) := by
    simp only [solveServer1]
    rw [if_neg hp, hraw]
  refine ⟨?_, ?_, ?_⟩
  · rw [hs]
    have hh := newtonStage_head nenv (newtonOpFor (parse1 problem raw).operation)
      (parse1 problem raw).expression
    cases hn : newtonStage nenv (newtonOpFor (parse1 problem raw).operation)
        (parse1 problem raw).expression with
    | error pr =>
      obtain ⟨m, nc⟩ := pr
      rw [hn] at hh
      dsimp only at hh ⊢
      exact hh
    | ok pr =>
      obtain ⟨⟨r, o⟩, nc⟩ := pr
      rw [hn] at hh
      dsimp only at hh ⊢
      cases h3 : genv (explanationPrompt1 problem (parse1 problem raw).operation
          (parse1 problem raw).expression r) <;> dsimp only <;> exact hh
  · intro m hm
    have hstage := newtonStage_first_fail nenv
      (newtonOpFor (parse1 problem raw).operation)
      (parse1 problem raw).expression m hm
    cases h2 : nenv "simplify" (parse1 problem raw).expression with
    | ok r o =>
      rw [h2] at hstage
      dsimp only at hstage
      rw [hs, hstage]
      dsimp only
      constructor
      · cases h3 : genv (explanationPrompt1 problem (parse1 problem raw).operation
            (parse1 problem raw).expression r) <;> rfl
      · intro m2 hm2
        exact NewtonOutcome.noConfusion hm2
    | fail m2' =>
      rw [h2] at hstage
      dsimp only at hstage
      rw [hs, hstage]
      dsimp only
      constructor
      · rfl
      · intro m2 hm2
        injection hm2 with hm2
        rw [← hm2]
  · refine ⟨?_, ?_⟩
    · intro op h hnp
      simp [newtonOpFor, newtonOpVal, jsIndex, jsValueToString, h, hnp]
    · intro op h
      simp only [protoKeys, List.mem_cons, List.not_mem_nil, or_false] at h
      rcases h with rfl | rfl | rfl | rfl | rfl | rfl | rfl | rfl | rfl | rfl |
        rfl | rfl <;> exact ⟨by decide, by decide⟩

/-- C8 counterexample: the bracket lookup of `server1.js` line 124 reaches
Object.prototype, so the parsed operation constructor — reachable, since
the parsed operation is lowercased, and absent from the operation catalog —
is NOT mapped to the default token simplify: the truthy inherited Object
constructor is kept and its rendering is the token of the first Newton
call; likewise for __proto__. -/
theorem c8_claim_counterexample :
    lookupOp "constructor" = none ∧
    (parse1 "p9" "Operation: CONSTRUCTOR\nExpression: x").operation =
      "constructor" ∧
    newtonOpFor "constructor" ≠ "simplify" ∧
    (solveServer1 genvC8b nenvAllOk (some "p9")).2.2.head? =
      some (newtonOpFor "constructor", "x") ∧
    lookupOp "__proto__" = none ∧
    newtonOpFor "__proto__" ≠ "simplify" := by
  decide

/-- Witness for c8_newton_retry: with an always-failing Newton API and an
analysis completion naming the factor operation, the Newton trace is the
factor call followed by the simplify retry on the same expression and the
response is the 500 with the wrapped Newton message; the out-of-catalog,
non-prototype operation derivative maps to simplify; and the prototype key
constructor is not defaulted. -/
theorem c8_newton_retry_witness :
    (solveServer1 genvC8 nenvC8 (some "p8")).2.2 =
      [("factor", "x^2"), ("simplify", "x^2")] ∧
    (solveServer1 genvC8 nenvC8 (some "p8")).1 =
      .serverError "Failed to solve math problem" "Newton API error: newton down" ∧
    newtonOpFor "derivative" = "simplify" ∧
    lookupOp "constructor" = none ∧ newtonOpFor "constructor" ≠ "simplify" := by
  have h := c8_newton_retry genvC8 nenvC8 "p8" "Operation: Factor\nExpression: x^2"
    (by decide) (by rfl)
  refine ⟨?_, ?_, h.2.2.1 "derivative" (by rfl) (by decide),
    h.2.2.2 "constructor" (by decide)⟩
  · exact ((h.2.1 "newton down" (by rfl)).1).trans (by decide)
  · exact ((h.2.1 "newton down" (by rfl)).2 "newton down" (by rfl)).trans (by decide)

end MathSolver
